import Mathlib

/-!
Verification of the Memoir memory engine (backend/memory of the Memoir
repository).  The Python modules are shallowly embedded: pure functions
become Lean functions over rationals (float arithmetic is modelled
exactly), the calls that write to the external vector store are collected
as explicit operation lists, and timestamps are modelled at day
granularity, which is the granularity the code itself uses
(timedelta.days).  External collaborators (the vector store, the
embedding service, the completion service) appear only through their
responses, which are taken as inputs.
-/

namespace Memoir

/-! ### String helpers

Python string operations are modelled on character lists so that they
compute inside the kernel.  A Python string test such as
kw in text corresponds to containsCL, str.lower to lowerStr. -/

/-- Checks whether the first list is a prefix of the second. -/
def startsWithCL : List Char → List Char → Bool
  | [], _ => true
  | _ :: _, [] => false
  | p :: ps, c :: cs => p == c && startsWithCL ps cs

/-- Python substring test: pat in text. -/
def containsCL (pat : List Char) : List Char → Bool
  | [] => pat.isEmpty
  | c :: rest => startsWithCL pat (c :: rest) || containsCL pat rest

/-- Python str.lower applied to a string, as a character list. -/
def lowerStr (s : String) : List Char := s.toList.map Char.toLower

/-- Python kw in text for a keyword string over a lowered text. -/
def pyIn (kw : String) (text : List Char) : Bool := containsCL kw.toList text

/-- Python any(kw in text for kw in kws). -/
def anyKw (kws : List String) (text : List Char) : Bool := kws.any (fun k => pyIn k text)

/-- Python any(ch.isdigit() for ch in text). -/
def hasDigit (text : List Char) : Bool := text.any Char.isDigit

/-- The apostrophe character (code point 39), used inside keyword strings. -/
def apoChar : Char := Char.ofNat 39

/-- The keyword i-apostrophe-m from the identity keyword table. -/
def kwIm : String := String.mk ['i', apoChar, 'm']

/-- The keyword don-apostrophe-t-like from the preference keyword table of
the extractor fallback. -/
def kwDontLike : String := String.mk ['d', 'o', 'n', apoChar, 't', ' ', 'l', 'i', 'k', 'e']

/-- Python str.strip on a character list. -/
def stripCL (l : List Char) : List Char :=
  ((l.dropWhile Char.isWhitespace).reverse.dropWhile Char.isWhitespace).reverse

/-! ### memory_types.py -/

/-- MemoryType enum (memory_types.py). -/
inductive MemoryType where
  | CORE_IDENTITY
  | PREFERENCES
  | EPISODIC
  | PROCEDURAL
  | TEMPORAL
  | FACT
  | CONVERSATION
deriving DecidableEq

/-- The string value of each enum member. -/
def MemoryType.value : MemoryType → String
  | .CORE_IDENTITY => "core"
  | .PREFERENCES => "preference"
  | .EPISODIC => "episodic"
  | .PROCEDURAL => "procedural"
  | .TEMPORAL => "temporal"
  | .FACT => "fact"
  | .CONVERSATION => "conversation"

/-- Python MemoryType(s): looks an enum member up by value; none models the
ValueError raised on an unknown value. -/
def MemoryType.ofValue (s : String) : Option MemoryType :=
  if s = "core" then some .CORE_IDENTITY
  else if s = "preference" then some .PREFERENCES
  else if s = "episodic" then some .EPISODIC
  else if s = "procedural" then some .PROCEDURAL
  else if s = "temporal" then some .TEMPORAL
  else if s = "fact" then some .FACT
  else if s = "conversation" then some .CONVERSATION
  else none

def DEFAULT_IMPORTANCE : ℚ := 0.5

/-- DECAY_HALF_LIFE_DAYS table; it has a key for every member, so the
dict-lookup default 90 in intelligence.py is unreachable. -/
def DECAY_HALF_LIFE_DAYS : MemoryType → ℚ
  | .CORE_IDENTITY => 3650
  | .PREFERENCES => 365
  | .FACT => 730
  | .PROCEDURAL => 1095
  | .EPISODIC => 90
  | .TEMPORAL => 14
  | .CONVERSATION => 7

/-! ### Metadata dictionaries

A timestamp-valued metadata entry is either absent (covers a missing key
and the empty string, both falsy in Python), present but rejected by
datetime.fromisoformat, or parsed; a parsed timestamp is its day number. -/

inductive Ts where
  | missing
  | malformed
  | parsed (day : ℤ)
deriving DecidableEq

/-- The metadata dictionary of a record, restricted to the keys the engine
reads.  Option models key absence; reads go through getD with the default
the Python call site passes to dict.get. -/
structure Metadata where
  memory_type : Option String := none
  importance : Option ℚ := none
  confidence : Option ℚ := none
  access_count : Option ℕ := none
  timestamp : Ts := .missing
  created_at : Ts := .missing
  last_accessed : Ts := .missing
  source_type : Option String := none
  is_archived : Bool := false
deriving DecidableEq

/-- MemoryRecord dataclass (intelligence.py); the same shape carries the
content/metadata/id dictionaries built by MemoryManager.get_user_memories. -/
structure MemoryRecord where
  id : Option String
  content : String
  metadata : Metadata
deriving DecidableEq

/-! ### intelligence.py: MemoryScorer -/

/-- The optional context dictionary of calculate_importance. -/
structure ScoreContext where
  is_user_explicit : Bool := false
deriving DecidableEq

def identityKeywords : List String := ["my name is", "i am", kwIm, "i work as", "i live in"]

def preferenceScoreKeywords : List String := ["i like", "i love", "i prefer", "i enjoy", "i hate"]

/-- MemoryScorer.calculate_importance. -/
def MemoryScorer.calculate_importance (content : String) (context : Option ScoreContext) : ℚ :=
  if content = "" then DEFAULT_IMPORTANCE
  else
    let content_lower := lowerStr content
    let score : ℚ := 0.5
    let score := score + (if anyKw identityKeywords content_lower then 0.3 else 0)
    let score := score + (if anyKw preferenceScoreKeywords content_lower then 0.2 else 0)
    let score := score + (if hasDigit content_lower then 0.05 else 0)
    let score := score +
      (if (match context with | some c => c.is_user_explicit | none => false) then 0.1 else 0)
    max 0 (min 1 score)

/-- MemoryScorer.classify_type: ordered-priority keyword matching. -/
def MemoryScorer.classify_type (content : String) : MemoryType :=
  let text := lowerStr content
  if anyKw identityKeywords text then .CORE_IDENTITY
  else if anyKw ["i like", "i love", "i prefer", "i enjoy", "i hate", "allergic"] text then
    .PREFERENCES
  else if anyKw ["today", "yesterday", "last", "this morning", "this evening"] text then
    .EPISODIC
  else if anyKw ["how to", "steps", "procedure", "workflow"] text then .PROCEDURAL
  else if anyKw ["until", "by", "deadline", "tomorrow", "next week"] text then .TEMPORAL
  else .FACT

/-! ### intelligence.py: ConflictDetector and ConflictResolver -/

/-- ConflictDetector.detect_direct_conflict: the stub that always reports
no conflict. -/
def ConflictDetector.detect_direct_conflict (_new_text _existing_text : String) : Bool := false

/-- ConflictDetector.detect_preference_change. -/
def ConflictDetector.detect_preference_change (new_text existing_text : String) : Bool :=
  let new_l := lowerStr new_text
  let old_l := lowerStr existing_text
  (pyIn "i prefer" new_l || pyIn "i like" new_l || pyIn "i love" new_l) &&
    (anyKw ["i prefer", "i like", "i love"] old_l && new_l ≠ old_l)

/-- ConflictDetector.scan_for_conflicts: at most one conflict per existing
record, preference evolution checked first, in iteration order. -/
def ConflictDetector.scan_for_conflicts (new_memory : MemoryRecord)
    (user_memories : List MemoryRecord) : List (String × MemoryRecord) :=
  user_memories.filterMap (fun mem =>
    if mem.metadata.memory_type ≠ new_memory.metadata.memory_type then none
    else if ConflictDetector.detect_preference_change new_memory.content mem.content then
      some ("preference_evolution", mem)
    else if ConflictDetector.detect_direct_conflict new_memory.content mem.content then
      some ("direct_contradiction", mem)
    else none)

/-- The dictionary returned by the ConflictResolver methods. -/
structure Resolution where
  operation : String
  target_memory_id : Option String
  reason : String
deriving DecidableEq

/-- ConflictResolver.resolve_preference_evolution. -/
def ConflictResolver.resolve_preference_evolution (old_mem _new_mem : MemoryRecord) : Resolution :=
  { operation := "UPDATE", target_memory_id := old_mem.id,
    reason := "Preference evolution by recency" }

/-- ConflictResolver.resolve_direct_contradiction: prefer explicit over
inferred, with explicit as the dict.get default for source_type. -/
def ConflictResolver.resolve_direct_contradiction (old_mem new_mem : MemoryRecord) : Resolution :=
  let new_is_explicit := new_mem.metadata.source_type.getD "explicit" = "explicit"
  let old_is_explicit := old_mem.metadata.source_type.getD "explicit" = "explicit"
  if new_is_explicit ∧ ¬ old_is_explicit then
    { operation := "DELETE", target_memory_id := old_mem.id,
      reason := "Direct conflict resolution" }
  else
    { operation := "UPDATE", target_memory_id := old_mem.id,
      reason := "Direct conflict resolution" }

/-! ### intelligence.py: TemporalManager -/

/-- Python metadata.get timestamp or metadata.get created_at: the or
falls through on a falsy (absent or empty) timestamp. -/
def tsOrCreated (md : Metadata) : Ts :=
  match md.timestamp with
  | .missing => md.created_at
  | t => t

/-- TemporalManager.calculate_decay_strength.  The now argument is the
ambient clock (the Python parameter defaults to datetime.now(), and an
unparseable timestamp is replaced by datetime.now(), hence age zero at
day granularity).  none models the uncaught ValueError that
MemoryType(mtype) raises on an unknown memory_type string. -/
noncomputable def TemporalManager.calculate_decay_strength (metadata : Metadata) (now : ℤ) :
    Option ℝ :=
  match tsOrCreated metadata with
  | .missing => some 1
  | ts =>
    let days_old : ℤ :=
      match ts with
      | .parsed day => max 0 (now - day)
      | _ => 0
    match MemoryType.ofValue (metadata.memory_type.getD "conversation") with
    | none => none
    | some mt =>
      some (Real.exp (-(Real.log 2 / (DECAY_HALF_LIFE_DAYS mt : ℝ)) * (days_old : ℝ)))

/-! ### memory_manager.py

MemoryManager.add_memory merges the caller metadata with the standard
fields and stores the importance argument unchanged; no clamping happens
anywhere on the write path. -/

/-- The metadata stored by MemoryManager.add_memory. -/
def MemoryManager.add_memory_metadata (memory_type : String) (importance : ℚ)
    (metadata : Metadata) (now : ℤ) : Metadata :=
  { metadata with
    memory_type := some memory_type
    importance := some importance
    timestamp := .parsed now
    created_at := .parsed now
    access_count := some 0
    last_accessed := .parsed now }

/-- The default of the importance parameter of add_preference_memory. -/
def ADD_PREFERENCE_DEFAULT_IMPORTANCE : ℚ := 1.5

/-- The metadata stored by MemoryManager.add_preference_memory. -/
def MemoryManager.add_preference_memory_metadata (importance : ℚ) (now : ℤ) : Metadata :=
  MemoryManager.add_memory_metadata "preference" importance {} now

/-- One row of the vector store query response consumed by
MemoryManager.retrieve_memories. -/
structure QueryHit where
  document : String
  metadata : Metadata
  distance : ℚ

/-- MemoryManager.retrieve_memories formats the raw query rows; it sets
the id of every result to None because the query call does not return
ids, and converts distance to similarity. -/
structure RetrievedMem where
  content : String
  metadata : Metadata
  similarity_score : ℚ
  id : Option String

def MemoryManager.retrieve_memories (results : List QueryHit) : List RetrievedMem :=
  results.map (fun r =>
    { content := r.document, metadata := r.metadata,
      similarity_score := 1 - r.distance, id := none })

/-- MemoryManager.get_user_memories formats collection rows the same way:
every returned record carries id None. -/
def MemoryManager.get_user_memories_record (content : String) (metadata : Metadata) :
    MemoryRecord :=
  { id := none, content := content, metadata := metadata }

/-! ### advanced_retrieval.py -/

/-- AdvancedMemoryRetrieval._calculate_recency_score: fixed 30-day
half-life over the timestamp key only, 0.5 when it is absent or
unparseable; the age is not clamped at zero. -/
noncomputable def AdvancedMemoryRetrieval.calculate_recency_score (memory : RetrievedMem)
    (current_time : ℤ) : ℝ :=
  match memory.metadata.timestamp with
  | .missing => 0.5
  | .malformed => 0.5
  | .parsed day => Real.exp (-(Real.log 2 / 30) * ((current_time - day : ℤ) : ℝ))

/-- AdvancedMemoryRetrieval._calculate_access_bonus. -/
noncomputable def AdvancedMemoryRetrieval.calculate_access_bonus (memory : RetrievedMem) : ℝ :=
  min (Real.log ((memory.metadata.access_count.getD 0 : ℕ) + 1) * 0.1) 0.5

/-- AdvancedMemoryRetrieval._calculate_type_weight. -/
def AdvancedMemoryRetrieval.calculate_type_weight (memory : RetrievedMem) : ℚ :=
  match memory.metadata.memory_type.getD "conversation" with
  | "preference" => 1
  | "fact" => 0.9
  | "conversation" => 0.7
  | _ => 0.7

/-- AdvancedMemoryRetrieval.calculate_relevance_score: the weighted
combination scaled by importance and clamped to the unit interval. -/
noncomputable def AdvancedMemoryRetrieval.calculate_relevance_score (memory : RetrievedMem)
    (current_time : ℤ) : ℝ :=
  let semantic_score : ℝ := (memory.similarity_score : ℝ)
  let recency_score := AdvancedMemoryRetrieval.calculate_recency_score memory current_time
  let importance_multiplier : ℝ := ((memory.metadata.importance.getD 1 : ℚ) : ℝ)
  let access_bonus := AdvancedMemoryRetrieval.calculate_access_bonus memory
  let type_weight : ℝ := ((AdvancedMemoryRetrieval.calculate_type_weight memory : ℚ) : ℝ)
  let confidence_score : ℝ := ((memory.metadata.confidence.getD 1 : ℚ) : ℝ)
  let final_score := (semantic_score * 0.4 + recency_score * 0.2 + access_bonus * 0.1 +
    type_weight * 0.2 + confidence_score * 0.1) * importance_multiplier
  max 0 (min 1 final_score)

/-- A retrieval result dict after the advanced relevance score has been
attached. -/
structure ScoredMem where
  mem : RetrievedMem
  advanced_relevance_score : ℝ

/-- One update_memory_metadata call issued by _increment_access_count. -/
structure MetadataUpdate where
  memory_id : String
  access_count : ℕ
deriving DecidableEq

/-- AdvancedMemoryRetrieval._increment_access_count: writes the increment
and a fresh last_accessed only when the record carries a truthy id. -/
def AdvancedMemoryRetrieval.increment_access_count (memory : ScoredMem) : List MetadataUpdate :=
  match memory.mem.id with
  | some memory_id =>
      [{ memory_id := memory_id, access_count := memory.mem.metadata.access_count.getD 0 + 1 }]
  | none => []

/-- Stable descending insertion used to model the Python list sort by
advanced relevance score with reverse set. -/
noncomputable def insertScoredDesc (x : ScoredMem) : List ScoredMem → List ScoredMem
  | [] => [x]
  | y :: ys =>
    if y.advanced_relevance_score < x.advanced_relevance_score then x :: y :: ys
    else y :: insertScoredDesc x ys

noncomputable def sortScoredDesc (l : List ScoredMem) : List ScoredMem :=
  l.foldl (fun acc x => insertScoredDesc x acc) []

/-- AdvancedMemoryRetrieval.retrieve_memories_advanced: scores the base
memories, filters by the minimum relevance, sorts descending, returns the
top k and issues the access-count updates for exactly those records. -/
noncomputable def AdvancedMemoryRetrieval.retrieve_memories_advanced
    (base_memories : List RetrievedMem) (top_k : ℕ) (min_relevance : ℝ) (current_time : ℤ) :
    List ScoredMem × List MetadataUpdate :=
  let scored_memories :=
    (base_memories.map (fun m =>
      ({ mem := m,
         advanced_relevance_score :=
           AdvancedMemoryRetrieval.calculate_relevance_score m current_time } : ScoredMem))).filter
      (fun sm => decide (min_relevance ≤ sm.advanced_relevance_score))
  let sorted := sortScoredDesc scored_memories
  (sorted.take top_k,
    ((sorted.take top_k).map AdvancedMemoryRetrieval.increment_access_count).flatten)

/-! ### contextual_retrieval.py: _select_optimal_memory_set -/

/-- A candidate dict as it reaches _select_optimal_memory_set, carrying
the blended final relevance score attached upstream. -/
structure RankedMem where
  content : String
  metadata : Metadata
  final_relevance_score : Option ℚ
deriving DecidableEq

/-- Python memory.get final_relevance_score with default 0.0. -/
def RankedMem.score (m : RankedMem) : ℚ := m.final_relevance_score.getD 0

/-- Python memory.get metadata memory_type with default unknown, as used
inside the selection. -/
def RankedMem.mtype (m : RankedMem) : String := m.metadata.memory_type.getD "unknown"

/-- Stable descending insertion for the final sort of the selected set. -/
def insertRankedDesc (x : RankedMem) : List RankedMem → List RankedMem
  | [] => [x]
  | y :: ys => if y.score < x.score then x :: y :: ys else y :: insertRankedDesc x ys

def sortRankedDesc (l : List RankedMem) : List RankedMem :=
  l.foldl (fun acc x => insertRankedDesc x acc) []

/-- The second (diversity) pass: walks the candidates beyond the first k,
stops once k records are selected, takes an unseen memory type
unconditionally and an already-seen type only at score at least 0.5. -/
def ContextualRetrieval.diversity_pass (target_k : ℕ) :
    List RankedMem → List RankedMem → List String → List RankedMem
  | [], selected, _ => selected
  | memory :: rest, selected, types_seen =>
    if target_k ≤ selected.length then selected
    else if memory.mtype ∉ types_seen then
      ContextualRetrieval.diversity_pass target_k rest (selected ++ [memory])
        (memory.mtype :: types_seen)
    else if (0.5 : ℚ) ≤ memory.score then
      ContextualRetrieval.diversity_pass target_k rest (selected ++ [memory]) types_seen
    else ContextualRetrieval.diversity_pass target_k rest selected types_seen

/-- ContextualRetrieval._select_optimal_memory_set. -/
def ContextualRetrieval.select_optimal_memory_set (ranked_memories : List RankedMem)
    (target_k : ℕ) : List RankedMem :=
  if ranked_memories.length ≤ target_k then ranked_memories
  else
    let first_pass := (ranked_memories.take target_k).filter (fun m => (0.6 : ℚ) ≤ m.score)
    let types_seen := first_pass.map RankedMem.mtype
    let selected :=
      if first_pass.length < target_k then
        ContextualRetrieval.diversity_pass target_k (ranked_memories.drop target_k)
          first_pass types_seen
      else first_pass
    (sortRankedDesc selected).take target_k

/-! ### intelligent_extractor.py -/

/-- The extraction dictionary returned by the completion collaborator
plus the metadata the extractor attaches; fields the pipeline reads. -/
structure ExtractionResult where
  facts : List String := []
  preferences : List String := []
  entities : List String := []
  importance_score : Option ℚ := none
  confidence : Option ℚ := none
deriving DecidableEq

/-- IntelligentMemoryExtractor._build_candidate_records: classify and
score each extracted string with the user-explicit context flag set. -/
def IntelligentMemoryExtractor.build_candidate_records (extraction_result : ExtractionResult) :
    List MemoryRecord :=
  (extraction_result.facts ++ extraction_result.preferences).map (fun text =>
    { id := none, content := text,
      metadata :=
        { memory_type := some (MemoryScorer.classify_type text).value,
          importance := some (MemoryScorer.calculate_importance text
            (some { is_user_explicit := true })),
          confidence := some (extraction_result.confidence.getD 1) } })

/-- A write issued against the external store by the extraction pipeline. -/
inductive StoreOp where
  | add (content : String) (memory_type : String) (importance : ℚ)
  | updateMeta (memory_id : String)
  | delete (memory_id : String)
deriving DecidableEq

/-- IntelligentMemoryExtractor._add_new_memory: preference keyword routing
only when no type is forced; preferences go through add_preference_memory
and everything else through add_fact_memory, which stores type fact. -/
def IntelligentMemoryExtractor.add_new_memory (content : String)
    (extraction_result : ExtractionResult) (forced_type : Option String)
    (forced_importance : Option ℚ) : StoreOp :=
  let memory_type :=
    match forced_type with
    | some t => t
    | none =>
      if anyKw ["like", "love", "prefer", "enjoy", "hate", kwDontLike, "allergic"]
          (lowerStr content) then "preference"
      else "fact"
  let importance := forced_importance.getD
    ((extraction_result.importance_score.getD 1) * (extraction_result.confidence.getD 1))
  if memory_type = "preference" then StoreOp.add content "preference" importance
  else StoreOp.add content "fact" importance

/-- The body of the candidate loop of
IntelligentMemoryExtractor.process_extracted_information: store writes
and processed log entries contributed by one candidate. -/
def IntelligentMemoryExtractor.process_candidate (cand : MemoryRecord)
    (existing : List MemoryRecord) (extraction_result : ExtractionResult) :
    List StoreOp × List String :=
  if cand.metadata.importance.getD 0 < (0.4 : ℚ) then ([], [])
  else
    match ConflictDetector.scan_for_conflicts cand existing with
    | [] =>
      ([IntelligentMemoryExtractor.add_new_memory cand.content extraction_result
          cand.metadata.memory_type cand.metadata.importance],
        ["Added: " ++ cand.content])
    | (ctype, old_mem) :: _ =>
      let action :=
        if ctype = "preference_evolution" then
          ConflictResolver.resolve_preference_evolution old_mem cand
        else ConflictResolver.resolve_direct_contradiction old_mem cand
      let step1 : List StoreOp × List String :=
        if action.operation = "UPDATE" then
          match old_mem.id with
          | some i => ([StoreOp.updateMeta i], ["Updated: " ++ cand.content])
          | none => ([], [])
        else if action.operation = "DELETE" then
          match old_mem.id with
          | some i => ([StoreOp.delete i], ["Deleted conflicting: " ++ old_mem.content])
          | none => ([], [])
        else ([], [])
      (step1.1 ++ [IntelligentMemoryExtractor.add_new_memory cand.content extraction_result
          cand.metadata.memory_type cand.metadata.importance],
        step1.2 ++ ["Added: " ++ cand.content])

/-- IntelligentMemoryExtractor.process_extracted_information over the
built candidates, collecting store writes and the processed log. -/
def IntelligentMemoryExtractor.process_extracted_information
    (extraction_result : ExtractionResult) (existing : List MemoryRecord) :
    List StoreOp × List String :=
  (IntelligentMemoryExtractor.build_candidate_records extraction_result).foldl
    (fun acc cand =>
      let r := IntelligentMemoryExtractor.process_candidate cand existing extraction_result
      (acc.1 ++ r.1, acc.2 ++ r.2))
    ([], [])

/-! ### lifecycle_manager.py -/

/-- MemoryLifecycleManager._get_type_importance_multiplier. -/
def MemoryLifecycleManager.type_importance_multiplier (memory_type : String) : ℚ :=
  match memory_type with
  | "core" => 1.5
  | "preference" => 1.3
  | "fact" => 1.2
  | "procedural" => 1.1
  | "episodic" => 0.9
  | "temporal" => 0.8
  | "conversation" => 0.7
  | _ => 1

/-- MemoryLifecycleManager._calculate_access_boost: 1.0 without a
last_accessed value or on a parse failure, otherwise 1 plus a 30-day
recency boost plus a capped frequency boost; the days since access are
not clamped at zero. -/
noncomputable def MemoryLifecycleManager.calculate_access_boost (metadata : Metadata)
    (now : ℤ) : ℝ :=
  match metadata.last_accessed with
  | .missing => 1
  | .malformed => 1
  | .parsed day =>
    1 + Real.exp (-((now - day : ℤ) : ℝ) / 30) +
      min (Real.log ((metadata.access_count.getD 0 : ℕ) + 1) * 0.1) 0.5

/-- The importance and decay_strength values persisted for one record by
MemoryLifecycleManager._update_importance_scores; none when the decay
computation raises on an unknown memory type. -/
noncomputable def MemoryLifecycleManager.update_importance_values (metadata : Metadata)
    (now : ℤ) : Option (ℝ × ℝ) :=
  (TemporalManager.calculate_decay_strength metadata now).map (fun temporal_decay =>
    (((metadata.importance.getD 0.5 : ℚ) : ℝ) * temporal_decay *
        MemoryLifecycleManager.calculate_access_boost metadata now *
        ((MemoryLifecycleManager.type_importance_multiplier
          (metadata.memory_type.getD "conversation") : ℚ) : ℝ),
      temporal_decay))

/-- Python max over a list; the callers only apply it to clusters of at
least three records, so the empty case never arises. -/
def pyMax (l : List ℚ) : ℚ :=
  match l with
  | [] => 0
  | x :: xs => xs.foldl max x

/-- The metadata dict built for the consolidated record inside
_consolidate_cluster. -/
structure ConsolidatedMeta where
  memory_type : String
  importance : ℚ
  consolidated_from : List String
  source_type : String := "consolidated"
deriving DecidableEq

/-- One archival update_memory_metadata call issued for an original
record of a consolidated cluster. -/
structure ArchiveUpdate where
  memory_id : String
  consolidated_into : String
deriving DecidableEq

/-- The store effects of one _consolidate_cluster call. -/
structure ConsolidationResult where
  success : Bool
  new_memories : List (String × ℚ × ConsolidatedMeta)
  archive_updates : List ArchiveUpdate
deriving DecidableEq

/-- MemoryLifecycleManager._consolidate_cluster.  The consolidated
content is the completion collaborator response (none models a falsy
reply).  Only records with a truthy id are listed in consolidated_from or
archived; records without one are silently left active. -/
def MemoryLifecycleManager.consolidate_cluster (cluster_memories : List MemoryRecord)
    (consolidated_content : Option String) : ConsolidationResult :=
  match consolidated_content with
  | none => { success := false, new_memories := [], archive_updates := [] }
  | some content =>
    if (stripCL content.toList).length < 10 then
      { success := false, new_memories := [], archive_updates := [] }
    else
      let base_importance :=
        pyMax (cluster_memories.map (fun m => m.metadata.importance.getD 0.5))
      let consolidated_importance := min (base_importance * 1.2) 1
      let meta : ConsolidatedMeta :=
        { memory_type :=
            (cluster_memories.head?.map (fun m => m.metadata.memory_type.getD "fact")).getD "fact",
          importance := consolidated_importance,
          consolidated_from := cluster_memories.filterMap (fun m => m.id) }
      { success := true,
        new_memories := [(content, consolidated_importance, meta)],
        archive_updates := cluster_memories.filterMap (fun m =>
          m.id.map (fun i =>
            { memory_id := i, consolidated_into := String.mk (content.toList.take 100) })) }

/-! ### Helper lemmas -/

/-- Clamping a score that is at least one half to the unit interval lands
in the upper half of the interval. -/
theorem clamp_unit_of_half_le {s : ℚ} (h : 1 / 2 ≤ s) :
    1 / 2 ≤ max 0 (min 1 s) ∧ max 0 (min 1 s) ≤ 1 :=
  ⟨le_trans (le_min (by norm_num) h) (le_max_right _ _),
    max_le (by norm_num) (min_le_left _ _)⟩

/-- The importance heuristic always lands in the upper half of the unit
interval: the baseline is one half and every contribution is nonnegative. -/
theorem calculate_importance_range (content : String) (context : Option ScoreContext) :
    1 / 2 ≤ MemoryScorer.calculate_importance content context ∧
      MemoryScorer.calculate_importance content context ≤ 1 := by
  unfold MemoryScorer.calculate_importance
  split
  · norm_num [DEFAULT_IMPORTANCE]
  · dsimp only
    exact clamp_unit_of_half_le (by split_ifs <;> norm_num)

/-- C10: every input text gets an importance in the interval from 0.5 to
1.0, so every candidate built by the extraction pipeline carries
importance at least 0.5 and the drop branch for importance below 0.4 can
never fire on a built candidate. -/
theorem candidate_importance_floor_unreachable :
    (∀ content context, 1 / 2 ≤ MemoryScorer.calculate_importance content context ∧
      MemoryScorer.calculate_importance content context ≤ 1) ∧
    (∀ extraction_result cand,
      cand ∈ IntelligentMemoryExtractor.build_candidate_records extraction_result →
        1 / 2 ≤ cand.metadata.importance.getD 0 ∧
          ¬ (cand.metadata.importance.getD 0 < (0.4 : ℚ))) := by
  refine ⟨calculate_importance_range, ?_⟩
  intro er cand hmem
  obtain ⟨text, -, rfl⟩ := List.mem_map.1 hmem
  have h := calculate_importance_range text (some { is_user_explicit := true })
  refine ⟨by simpa using h.1, ?_⟩
  simp only [Option.getD_some, not_lt]
  linarith [h.1]

def c10extraction : ExtractionResult := { facts := ["i like coffee"] }

def c10ctx : Option ScoreContext := some { is_user_explicit := true }

def c10cand : MemoryRecord :=
  { id := none, content := "i like coffee",
    metadata :=
      { memory_type := some (MemoryScorer.classify_type "i like coffee").value,
        importance := some (MemoryScorer.calculate_importance "i like coffee" c10ctx),
        confidence := some (c10extraction.confidence.getD 1) } }

/-- Witness for C10 at the concrete extracted fact i like coffee. -/
theorem candidate_importance_floor_unreachable_witness :
    1 / 2 ≤ c10cand.metadata.importance.getD 0 ∧
      ¬ (c10cand.metadata.importance.getD 0 < (0.4 : ℚ)) := by
  have hmem : c10cand ∈ IntelligentMemoryExtractor.build_candidate_records c10extraction := by
    simp [IntelligentMemoryExtractor.build_candidate_records, c10extraction, c10cand, c10ctx]
  exact candidate_importance_floor_unreachable.2 c10extraction c10cand hmem

/-- C7: a candidate below the 0.4 importance floor is dropped before the
conflict scan and contributes no store write and no log entry, whatever
the existing record set is. -/
theorem low_importance_candidate_never_written (cand : MemoryRecord)
    (existing : List MemoryRecord) (extraction_result : ExtractionResult)
    (h : cand.metadata.importance.getD 0 < (0.4 : ℚ)) :
    IntelligentMemoryExtractor.process_candidate cand existing extraction_result = ([], []) := by
  unfold IntelligentMemoryExtractor.process_candidate
  rw [if_pos h]

def c7cand : MemoryRecord :=
  { id := none, content := "The weather was mild", metadata := { importance := some 0.35 } }

/-- Witness for C7: the spec scenario of a candidate at importance 0.35. -/
theorem low_importance_candidate_never_written_witness :
    IntelligentMemoryExtractor.process_candidate c7cand [] {} = ([], []) :=
  low_importance_candidate_never_written c7cand [] {} (by norm_num [c7cand])

/-- C8: the contextual selection never returns more than the target k,
and when the candidate list already fits inside k it is returned whole. -/
theorem select_optimal_memory_set_size (ranked_memories : List RankedMem) (target_k : ℕ) :
    (ContextualRetrieval.select_optimal_memory_set ranked_memories target_k).length ≤ target_k ∧
      (ranked_memories.length ≤ target_k →
        ContextualRetrieval.select_optimal_memory_set ranked_memories target_k =
          ranked_memories) := by
  unfold ContextualRetrieval.select_optimal_memory_set
  by_cases h : ranked_memories.length ≤ target_k
  · rw [if_pos h]
    exact ⟨h, fun _ => rfl⟩
  · rw [if_neg h]
    exact ⟨List.length_take_le _ _, fun hc => absurd hc h⟩

def c8ranked : List RankedMem :=
  [{ content := "a", metadata := {}, final_relevance_score := some 0.9 },
   { content := "b", metadata := {}, final_relevance_score := some 0.2 }]

/-- Witness for C8 on a two-element candidate list with target five. -/
theorem select_optimal_memory_set_size_witness :
    (ContextualRetrieval.select_optimal_memory_set c8ranked 5).length ≤ 5 ∧
      (c8ranked.length ≤ 5 →
        ContextualRetrieval.select_optimal_memory_set c8ranked 5 = c8ranked) :=
  select_optimal_memory_set_size c8ranked 5

/-- Python dict.get of source_type with the default explicit. -/
def sourceTypeOf (m : MemoryRecord) : String := m.metadata.source_type.getD "explicit"

/-- C6: a preference-evolution conflict is always resolved as UPDATE on
the existing record, and a direct contradiction is resolved as DELETE of
the existing record exactly when the new candidate is explicit and the
existing record is inferred, otherwise as UPDATE of the existing record;
both resolutions target the existing record. -/
theorem conflict_resolution_policy (old_mem new_mem : MemoryRecord)
    (hold : sourceTypeOf old_mem = "explicit" ∨ sourceTypeOf old_mem = "inferred")
    (hnew : sourceTypeOf new_mem = "explicit" ∨ sourceTypeOf new_mem = "inferred") :
    (ConflictResolver.resolve_preference_evolution old_mem new_mem).operation = "UPDATE" ∧
    (ConflictResolver.resolve_preference_evolution old_mem new_mem).target_memory_id =
      old_mem.id ∧
    (ConflictResolver.resolve_direct_contradiction old_mem new_mem).target_memory_id =
      old_mem.id ∧
    (ConflictResolver.resolve_direct_contradiction old_mem new_mem).operation =
      (if sourceTypeOf new_mem = "explicit" ∧ sourceTypeOf old_mem = "inferred" then "DELETE"
       else "UPDATE") := by
  refine ⟨rfl, rfl, ?_, ?_⟩
  · unfold ConflictResolver.resolve_direct_contradiction
    dsimp only
    split <;> rfl
  · unfold sourceTypeOf at *
    rcases hold with h1 | h1 <;> rcases hnew with h2 | h2 <;>
      simp [ConflictResolver.resolve_direct_contradiction, h1, h2]

def c6old : MemoryRecord :=
  { id := some "mem-1", content := "User probably prefers tea",
    metadata := { memory_type := some "preference", source_type := some "inferred" } }

def c6new : MemoryRecord :=
  { id := none, content := "I prefer coffee",
    metadata := { memory_type := some "preference", source_type := some "explicit" } }

/-- Witness for C6: an explicit candidate against an inferred record. -/
theorem conflict_resolution_policy_witness :
    (ConflictResolver.resolve_preference_evolution c6old c6new).operation = "UPDATE" ∧
    (ConflictResolver.resolve_preference_evolution c6old c6new).target_memory_id = c6old.id ∧
    (ConflictResolver.resolve_direct_contradiction c6old c6new).target_memory_id = c6old.id ∧
    (ConflictResolver.resolve_direct_contradiction c6old c6new).operation =
      (if sourceTypeOf c6new = "explicit" ∧ sourceTypeOf c6old = "inferred" then "DELETE"
       else "UPDATE") :=
  conflict_resolution_policy c6old c6new (Or.inr rfl) (Or.inl rfl)

/-- Every half-life in the table is positive. -/
theorem half_life_pos (mt : MemoryType) : 0 < DECAY_HALF_LIFE_DAYS mt := by
  cases mt <;> norm_num [DECAY_HALF_LIFE_DAYS]

/-- An exponential with nonpositive exponent lies in the half-open unit
interval. -/
theorem exp_nonpos_mem_unit {x : ℝ} (h : x ≤ 0) : 0 < Real.exp x ∧ Real.exp x ≤ 1 :=
  ⟨Real.exp_pos x, Real.exp_le_one_iff.mpr h⟩

/-- The decay strength computed by the Decay Model always lies in the
half-open unit interval whenever the computation succeeds. -/
theorem calculate_decay_strength_bounds (metadata : Metadata) (now : ℤ) (r : ℝ)
    (h : TemporalManager.calculate_decay_strength metadata now = some r) : 0 < r ∧ r ≤ 1 := by
  unfold TemporalManager.calculate_decay_strength at h
  cases hts : tsOrCreated metadata with
  | missing =>
    rw [hts] at h
    simp only [Option.some.injEq] at h
    subst h
    norm_num
  | malformed =>
    rw [hts] at h
    cases hv : MemoryType.ofValue (metadata.memory_type.getD "conversation") with
    | none => rw [hv] at h; simp at h
    | some mt =>
      rw [hv] at h
      simp only [Option.some.injEq] at h
      subst h
      refine exp_nonpos_mem_unit ?_
      rw [neg_mul]
      refine neg_nonpos.mpr (mul_nonneg ?_ (by norm_num))
      exact div_nonneg (Real.log_nonneg (by norm_num)) (by exact_mod_cast (half_life_pos mt).le)
  | parsed day =>
    rw [hts] at h
    cases hv : MemoryType.ofValue (metadata.memory_type.getD "conversation") with
    | none => rw [hv] at h; simp at h
    | some mt =>
      rw [hv] at h
      simp only [Option.some.injEq] at h
      subst h
      refine exp_nonpos_mem_unit ?_
      rw [neg_mul]
      refine neg_nonpos.mpr (mul_nonneg ?_ ?_)
      · exact div_nonneg (Real.log_nonneg (by norm_num))
          (by exact_mod_cast (half_life_pos mt).le)
      · exact_mod_cast le_max_left 0 (now - day)

/-- C1 amended: after a Lifecycle Scheduler importance recomputation the
persisted decay strength lies in the half-open unit interval, but
importance is not clamped anywhere: record creation persists the
caller-supplied importance verbatim. -/
theorem decay_in_unit_interval_and_creation_unclamped :
    (∀ metadata now imp dec,
      MemoryLifecycleManager.update_importance_values metadata now = some (imp, dec) →
        0 < dec ∧ dec ≤ 1) ∧
    (∀ importance now,
      (MemoryManager.add_preference_memory_metadata importance now).importance =
        some importance) := by
  constructor
  · intro metadata now imp dec h
    unfold MemoryLifecycleManager.update_importance_values at h
    cases hd : TemporalManager.calculate_decay_strength metadata now with
    | none => rw [hd] at h; simp at h
    | some d =>
      rw [hd] at h
      have hsnd := congrArg (Option.map Prod.snd) h
      simp only [Option.map_map, Option.map_some'] at hsnd
      have hdec : dec = d := by
        simpa using hsnd.symm
      subst hdec
      exact calculate_decay_strength_bounds metadata now _ hd
  · intro importance now
    rfl

/-- Witness for C1 on an empty metadata dictionary: decay strength 1. -/
theorem decay_in_unit_interval_and_creation_unclamped_witness :
    (0 : ℝ) < 1 ∧ (1 : ℝ) ≤ 1 := by
  have h : MemoryLifecycleManager.update_importance_values {} 0 =
      some (((0.5 : ℚ) : ℝ) * 1 * 1 * ((0.7 : ℚ) : ℝ), 1) := rfl
  exact decay_in_unit_interval_and_creation_unclamped.1 {} 0 _ 1 h

/-- C1 counterexample: add_preference_memory with its default importance
argument stores importance 1.5, outside the unit interval, at record
creation. -/
theorem creation_stores_importance_above_one :
    (MemoryManager.add_preference_memory_metadata
        ADD_PREFERENCE_DEFAULT_IMPORTANCE 0).importance.getD 0 = 3 / 2 ∧
      ¬ ((MemoryManager.add_preference_memory_metadata
        ADD_PREFERENCE_DEFAULT_IMPORTANCE 0).importance.getD 0 ≤ 1) := by
  constructor <;>
    norm_num [MemoryManager.add_preference_memory_metadata,
      MemoryManager.add_memory_metadata, ADD_PREFERENCE_DEFAULT_IMPORTANCE]

/-- C4 amended: a missing timestamp yields decay strength exactly 1.0 and
an unparseable timestamp is treated as age zero, also yielding 1.0; the
function does not return the 0.5 fallback. -/
theorem decay_of_missing_or_malformed_is_one (metadata : Metadata) (now : ℤ) (r : ℝ)
    (hts : tsOrCreated metadata = Ts.missing ∨ tsOrCreated metadata = Ts.malformed)
    (h : TemporalManager.calculate_decay_strength metadata now = some r) : r = 1 := by
  unfold TemporalManager.calculate_decay_strength at h
  rcases hts with hts | hts <;> rw [hts] at h
  · simpa using h.symm
  · cases hv : MemoryType.ofValue (metadata.memory_type.getD "conversation") with
    | none => rw [hv] at h; simp at h
    | some mt =>
      rw [hv] at h
      simp only [Int.cast_zero, mul_zero, Real.exp_zero, Option.some.injEq] at h
      exact h.symm

def c4md : Metadata := { memory_type := some "preference", timestamp := Ts.malformed }

/-- Witness for C4 on a record whose timestamp string fails to parse. -/
theorem decay_of_missing_or_malformed_is_one_witness : (1 : ℝ) = 1 := by
  have h : TemporalManager.calculate_decay_strength c4md 5 = some 1 := by
    have hr : TemporalManager.calculate_decay_strength c4md 5 =
        some (Real.exp (-(Real.log 2 / ((365 : ℚ) : ℝ)) * ((0 : ℤ) : ℝ))) := rfl
    rw [hr]
    norm_num
  exact decay_of_missing_or_malformed_is_one c4md 5 1 (Or.inr rfl) h

/-- C4 counterexample: the Decay Model returns 1.0, not 0.5, on a record
with no timestamp at all. -/
theorem decay_of_missing_timestamp_not_half :
    TemporalManager.calculate_decay_strength {} 0 = some 1 ∧ (1 : ℝ) ≠ 0.5 :=
  ⟨rfl, by norm_num⟩

def c5md : Metadata := { memory_type := some "preference", timestamp := Ts.parsed 0 }

def c5mem : RetrievedMem :=
  { content := "I prefer tea", metadata := c5md, similarity_score := 1, id := none }

/-- C5 counterexample: a preference record thirty days old. The Decay
Model yields the per-type value with half-life 365, but the retrieval
recency score, computed with a fixed 30-day half-life, differs from it. -/
theorem recency_differs_from_decay_model :
    TemporalManager.calculate_decay_strength c5md 30 =
      some (Real.exp (-(Real.log 2 / 365) * 30)) ∧
    AdvancedMemoryRetrieval.calculate_recency_score c5mem 30 ≠
      Real.exp (-(Real.log 2 / 365) * 30) := by
  constructor
  · have hr : TemporalManager.calculate_decay_strength c5md 30 =
        some (Real.exp (-(Real.log 2 / ((365 : ℚ) : ℝ)) * ((max 0 (30 - 0) : ℤ) : ℝ))) := rfl
    rw [hr]
    norm_num
  · have hr : AdvancedMemoryRetrieval.calculate_recency_score c5mem 30 =
        Real.exp (-(Real.log 2 / 30) * ((30 - 0 : ℤ) : ℝ)) := rfl
    rw [hr]
    intro h
    have heq := Real.exp_injective h
    have hl : 0 < Real.log 2 := Real.log_pos (by norm_num)
    have h30 : ((30 - 0 : ℤ) : ℝ) = 30 := by norm_num
    rw [h30] at heq
    nlinarith [heq, hl]

/-- C5 amended: the recency factor ignores the memory type entirely and
follows a fixed 30-day half-life, reaching exactly one half at age 30
days. -/
theorem recency_uses_fixed_thirty_day_half_life :
    (∀ (mem : RetrievedMem) (now : ℤ) (mt : Option String),
      AdvancedMemoryRetrieval.calculate_recency_score
        { mem with metadata := { mem.metadata with memory_type := mt } } now =
        AdvancedMemoryRetrieval.calculate_recency_score mem now) ∧
    (∀ (mem : RetrievedMem) (day now : ℤ),
      mem.metadata.timestamp = Ts.parsed day → now - day = 30 →
        AdvancedMemoryRetrieval.calculate_recency_score mem now = 1 / 2) := by
  constructor
  · intro mem now mt
    rfl
  · intro mem day now hts hage
    simp only [AdvancedMemoryRetrieval.calculate_recency_score, hts]
    rw [hage]
    have h30 : ((30 : ℤ) : ℝ) = 30 := by norm_num
    rw [h30]
    have hexp : -(Real.log 2 / 30) * (30 : ℝ) = -(Real.log 2) := by ring
    rw [hexp, Real.exp_neg, Real.exp_log two_pos]
    norm_num

/-- Witness for C5 on the thirty-day-old preference record. -/
theorem recency_uses_fixed_thirty_day_half_life_witness :
    AdvancedMemoryRetrieval.calculate_recency_score c5mem 30 = 1 / 2 :=
  recency_uses_fixed_thirty_day_half_life.2 c5mem 0 30 rfl (by norm_num)

/-- The recency score lies in the unit interval whenever the record is
not timestamped in the future. -/
theorem recency_score_bounds (mem : RetrievedMem) (now : ℤ)
    (hpast : ∀ day, mem.metadata.timestamp = Ts.parsed day → day ≤ now) :
    0 ≤ AdvancedMemoryRetrieval.calculate_recency_score mem now ∧
      AdvancedMemoryRetrieval.calculate_recency_score mem now ≤ 1 := by
  unfold AdvancedMemoryRetrieval.calculate_recency_score
  cases hts : mem.metadata.timestamp with
  | missing => norm_num
  | malformed => norm_num
  | parsed day =>
    refine ⟨(Real.exp_pos _).le, Real.exp_le_one_iff.mpr ?_⟩
    rw [neg_mul]
    refine neg_nonpos.mpr (mul_nonneg ?_ ?_)
    · exact div_nonneg (Real.log_nonneg (by norm_num)) (by norm_num)
    · have := hpast day hts
      exact_mod_cast sub_nonneg.mpr this

/-- The access bonus lies between zero and one half. -/
theorem access_bonus_bounds (mem : RetrievedMem) :
    0 ≤ AdvancedMemoryRetrieval.calculate_access_bonus mem ∧
      AdvancedMemoryRetrieval.calculate_access_bonus mem ≤ 1 / 2 := by
  unfold AdvancedMemoryRetrieval.calculate_access_bonus
  constructor
  · refine le_min (mul_nonneg (Real.log_nonneg ?_) (by norm_num)) (by norm_num)
    have : (0 : ℝ) ≤ ((mem.metadata.access_count.getD 0 : ℕ) : ℝ) := by positivity
    linarith
  · refine le_trans (min_le_right _ _) (by norm_num)

/-- The type weight lies between zero and one. -/
theorem type_weight_bounds (mem : RetrievedMem) :
    0 ≤ AdvancedMemoryRetrieval.calculate_type_weight mem ∧
      AdvancedMemoryRetrieval.calculate_type_weight mem ≤ 1 := by
  unfold AdvancedMemoryRetrieval.calculate_type_weight
  split <;> norm_num

/-- Strict monotonicity of the clamped weighted combination in its
semantic component, given in-range factors and a positive importance. -/
theorem relevance_clamp_strict_mono (s1 s2 r a t c i : ℝ)
    (hs0 : 0 ≤ s1) (hlt : s1 < s2) (hs1 : s2 ≤ 1)
    (hr0 : 0 ≤ r) (hr1 : r ≤ 1) (ha0 : 0 ≤ a) (ha1 : a ≤ 1 / 2)
    (ht0 : 0 ≤ t) (ht1 : t ≤ 1) (hc0 : 0 ≤ c) (hc1 : c ≤ 1)
    (hi0 : 0 < i) (hi1 : i ≤ 1) :
    max 0 (min 1 ((s1 * 0.4 + r * 0.2 + a * 0.1 + t * 0.2 + c * 0.1) * i)) <
      max 0 (min 1 ((s2 * 0.4 + r * 0.2 + a * 0.1 + t * 0.2 + c * 0.1) * i)) := by
  have hw1 : 0 ≤ s1 * 0.4 + r * 0.2 + a * 0.1 + t * 0.2 + c * 0.1 := by nlinarith
  have hw2n : 0 ≤ s2 * 0.4 + r * 0.2 + a * 0.1 + t * 0.2 + c * 0.1 := by nlinarith
  have hw2 : s2 * 0.4 + r * 0.2 + a * 0.1 + t * 0.2 + c * 0.1 ≤ 1 := by nlinarith
  have hw1le : s1 * 0.4 + r * 0.2 + a * 0.1 + t * 0.2 + c * 0.1 ≤ 1 := by nlinarith
  have hm1 : (s1 * 0.4 + r * 0.2 + a * 0.1 + t * 0.2 + c * 0.1) * i ≤ 1 :=
    mul_le_one₀ hw1le hi0.le hi1
  have hm2 : (s2 * 0.4 + r * 0.2 + a * 0.1 + t * 0.2 + c * 0.1) * i ≤ 1 :=
    mul_le_one₀ hw2 hi0.le hi1
  have hn1 : 0 ≤ (s1 * 0.4 + r * 0.2 + a * 0.1 + t * 0.2 + c * 0.1) * i :=
    mul_nonneg hw1 hi0.le
  have hn2 : 0 ≤ (s2 * 0.4 + r * 0.2 + a * 0.1 + t * 0.2 + c * 0.1) * i :=
    mul_nonneg hw2n hi0.le
  rw [min_eq_right hm1, min_eq_right hm2, max_eq_right hn1, max_eq_right hn2]
  have hwlt : s1 * 0.4 + r * 0.2 + a * 0.1 + t * 0.2 + c * 0.1 <
      s2 * 0.4 + r * 0.2 + a * 0.1 + t * 0.2 + c * 0.1 := by nlinarith
  exact mul_lt_mul_of_pos_right hwlt hi0

/-- C9: with the metadata (hence recency, access bonus, type weight,
confidence and importance) held fixed, in-range, not future-dated, and
importance positive, a strictly greater semantic similarity yields a
strictly greater final relevance score. -/
theorem semantic_strictly_increases_relevance (m1 m2 : RetrievedMem) (now : ℤ)
    (hmd : m1.metadata = m2.metadata)
    (hs0 : 0 ≤ m1.similarity_score)
    (hlt : m1.similarity_score < m2.similarity_score)
    (hs1 : m2.similarity_score ≤ 1)
    (himp0 : 0 < m1.metadata.importance.getD 1)
    (himp1 : m1.metadata.importance.getD 1 ≤ 1)
    (hc0 : 0 ≤ m1.metadata.confidence.getD 1)
    (hc1 : m1.metadata.confidence.getD 1 ≤ 1)
    (hpast : ∀ day, m1.metadata.timestamp = Ts.parsed day → day ≤ now) :
    AdvancedMemoryRetrieval.calculate_relevance_score m1 now <
      AdvancedMemoryRetrieval.calculate_relevance_score m2 now := by
  have e1 : AdvancedMemoryRetrieval.calculate_relevance_score m1 now =
      max 0 (min 1 ((((m1.similarity_score : ℚ) : ℝ) * 0.4 +
        AdvancedMemoryRetrieval.calculate_recency_score m1 now * 0.2 +
        AdvancedMemoryRetrieval.calculate_access_bonus m1 * 0.1 +
        ((AdvancedMemoryRetrieval.calculate_type_weight m1 : ℚ) : ℝ) * 0.2 +
        ((m1.metadata.confidence.getD 1 : ℚ) : ℝ) * 0.1) *
        ((m1.metadata.importance.getD 1 : ℚ) : ℝ))) := rfl
  have e2 : AdvancedMemoryRetrieval.calculate_relevance_score m2 now =
      max 0 (min 1 ((((m2.similarity_score : ℚ) : ℝ) * 0.4 +
        AdvancedMemoryRetrieval.calculate_recency_score m2 now * 0.2 +
        AdvancedMemoryRetrieval.calculate_access_bonus m2 * 0.1 +
        ((AdvancedMemoryRetrieval.calculate_type_weight m2 : ℚ) : ℝ) * 0.2 +
        ((m2.metadata.confidence.getD 1 : ℚ) : ℝ) * 0.1) *
        ((m2.metadata.importance.getD 1 : ℚ) : ℝ))) := rfl
  have hrec2 : AdvancedMemoryRetrieval.calculate_recency_score m2 now =
      AdvancedMemoryRetrieval.calculate_recency_score m1 now := by
    unfold AdvancedMemoryRetrieval.calculate_recency_score
    rw [hmd]
  have hacc2 : AdvancedMemoryRetrieval.calculate_access_bonus m2 =
      AdvancedMemoryRetrieval.calculate_access_bonus m1 := by
    unfold AdvancedMemoryRetrieval.calculate_access_bonus
    rw [hmd]
  have htw2 : AdvancedMemoryRetrieval.calculate_type_weight m2 =
      AdvancedMemoryRetrieval.calculate_type_weight m1 := by
    unfold AdvancedMemoryRetrieval.calculate_type_weight
    rw [hmd]
  have hrec := recency_score_bounds m1 now hpast
  have hacc := access_bonus_bounds m1
  have htw := type_weight_bounds m1
  rw [e1, e2, hrec2, hacc2, htw2, ← hmd]
  refine relevance_clamp_strict_mono _ _ _ _ _ _ _ ?_ ?_ ?_ ?_ ?_ ?_ ?_ ?_ ?_ ?_ ?_ ?_ ?_
  · exact_mod_cast hs0
  · exact_mod_cast hlt
  · exact_mod_cast hs1
  · exact hrec.1
  · exact hrec.2
  · exact hacc.1
  · exact hacc.2
  · exact_mod_cast htw.1
  · exact_mod_cast htw.2
  · exact_mod_cast hc0
  · exact_mod_cast hc1
  · exact_mod_cast himp0
  · exact_mod_cast himp1

def c9md : Metadata :=
  { memory_type := some "preference", importance := some (1 / 2), confidence := some 1 }

def c9mem1 : RetrievedMem :=
  { content := "I prefer tea", metadata := c9md, similarity_score := 0, id := none }

def c9mem2 : RetrievedMem :=
  { content := "I prefer tea", metadata := c9md, similarity_score := 1, id := none }

/-- Witness for C9: identical records apart from semantic similarity 0
versus 1. -/
theorem semantic_strictly_increases_relevance_witness :
    AdvancedMemoryRetrieval.calculate_relevance_score c9mem1 0 <
      AdvancedMemoryRetrieval.calculate_relevance_score c9mem2 0 := by
  refine semantic_strictly_increases_relevance c9mem1 c9mem2 0 rfl ?_ ?_ ?_ ?_ ?_ ?_ ?_ ?_
  · norm_num [c9mem1]
  · norm_num [c9mem1, c9mem2]
  · norm_num [c9mem2]
  · norm_num [c9mem1, c9md]
  · norm_num [c9mem1, c9md]
  · norm_num [c9mem1, c9md]
  · norm_num [c9mem1, c9md]
  · intro day h
    simp [c9mem1, c9md] at h

/-- Membership in a descending insertion comes from the inserted element
or the original list. -/
theorem mem_insertScoredDesc {x y : ScoredMem} :
    ∀ {l : List ScoredMem}, x ∈ insertScoredDesc y l → x = y ∨ x ∈ l := by
  intro l
  induction l with
  | nil =>
    intro h
    simp only [insertScoredDesc, List.mem_singleton] at h
    exact Or.inl h
  | cons z zs ih =>
    intro h
    unfold insertScoredDesc at h
    split at h
    · rcases List.mem_cons.1 h with h1 | h1
      · exact Or.inl h1
      · exact Or.inr h1
    · rcases List.mem_cons.1 h with h1 | h1
      · exact Or.inr (h1 ▸ List.mem_cons_self z zs)
      · rcases ih h1 with h2 | h2
        · exact Or.inl h2
        · exact Or.inr (List.mem_cons_of_mem z h2)

/-- Membership in the insertion-sort fold comes from the accumulator or
the input list. -/
theorem mem_sortScoredDesc_aux {x : ScoredMem} :
    ∀ (l acc : List ScoredMem),
      x ∈ l.foldl (fun a b => insertScoredDesc b a) acc → x ∈ acc ∨ x ∈ l := by
  intro l
  induction l with
  | nil => intro acc h; exact Or.inl h
  | cons y ys ih =>
    intro acc h
    rcases ih (insertScoredDesc y acc) h with h1 | h1
    · rcases mem_insertScoredDesc h1 with h2 | h2
      · exact Or.inr (h2 ▸ List.mem_cons_self y ys)
      · exact Or.inl h2
    · exact Or.inr (List.mem_cons_of_mem y h1)

/-- Sorting preserves membership (one direction suffices here). -/
theorem mem_of_mem_sortScoredDesc {x : ScoredMem} {l : List ScoredMem}
    (h : x ∈ sortScoredDesc l) : x ∈ l := by
  rcases mem_sortScoredDesc_aux l [] h with h1 | h1
  · simp at h1
  · exact h1

/-- A mapped flatten over lists that are all empty is empty. -/
theorem flatten_map_eq_nil {α β : Type} (f : α → List β) :
    ∀ (l : List α), (∀ x ∈ l, f x = []) → (l.map f).flatten = [] := by
  intro l
  induction l with
  | nil => intro _; rfl
  | cons y ys ih =>
    intro h
    simp only [List.map_cons, List.flatten_cons, h y (List.mem_cons_self y ys),
      List.nil_append]
    exact ih (fun x hx => h x (List.mem_cons_of_mem y hx))

/-- C3: because retrieve_memories hands every record over with id None,
the advanced retrieval issues no access-count update and no last-accessed
refresh at all, for any query response, any k, any minimum relevance and
any clock, even when records are returned in the final top-k. -/
theorem advanced_retrieval_never_updates_the_store
    (results : List QueryHit) (top_k : ℕ) (min_relevance : ℝ) (current_time : ℤ) :
    (AdvancedMemoryRetrieval.retrieve_memories_advanced
      (MemoryManager.retrieve_memories results) top_k min_relevance current_time).2 = [] := by
  unfold AdvancedMemoryRetrieval.retrieve_memories_advanced
  dsimp only
  apply flatten_map_eq_nil
  intro x hx
  have hx1 : x ∈ sortScoredDesc
      (((MemoryManager.retrieve_memories results).map (fun m =>
        ({ mem := m, advanced_relevance_score :=
          AdvancedMemoryRetrieval.calculate_relevance_score m current_time } : ScoredMem))).filter
        (fun sm => decide (min_relevance ≤ sm.advanced_relevance_score))) :=
    List.take_subset top_k _ hx
  have hx2 := mem_of_mem_sortScoredDesc hx1
  have hx3 := List.mem_of_mem_filter hx2
  obtain ⟨m, hm, rfl⟩ := List.mem_map.1 hx3
  obtain ⟨q, -, rfl⟩ := List.mem_map.1 hm
  rfl

def c2meta1 : Metadata := { memory_type := some "fact", importance := some 0.8 }

def c2meta2 : Metadata := { memory_type := some "fact", importance := some 0.6 }

def c2meta3 : Metadata := { memory_type := some "fact", importance := some 0.7 }

/-- A consolidation cluster as the Lifecycle Scheduler actually builds
it: three near-duplicate fact records fetched through get_user_memories,
hence all with id None. -/
def c2cluster : List MemoryRecord :=
  [MemoryManager.get_user_memories_record "User lives in Boston" c2meta1,
   MemoryManager.get_user_memories_record "User lives in Boston area" c2meta2,
   MemoryManager.get_user_memories_record "User is living in Boston" c2meta3]

/-- C2: evaluating _consolidate_cluster on a size-3 cluster coming from
get_user_memories shows the run succeeds and adds one new record, yet
archives none of the three originals and records an empty
consolidated_from list, because every original arrived with id None. -/
theorem consolidation_archives_nothing_at_runtime :
    (MemoryLifecycleManager.consolidate_cluster c2cluster
      (some "User lives in the Boston area.")).success = true ∧
    (MemoryLifecycleManager.consolidate_cluster c2cluster
      (some "User lives in the Boston area.")).new_memories.length = 1 ∧
    (MemoryLifecycleManager.consolidate_cluster c2cluster
      (some "User lives in the Boston area.")).archive_updates = [] ∧
    ∀ nm ∈ (MemoryLifecycleManager.consolidate_cluster c2cluster
      (some "User lives in the Boston area.")).new_memories,
        nm.2.2.consolidated_from = [] := by
  unfold MemoryLifecycleManager.consolidate_cluster
  dsimp only
  rw [if_neg (by decide)]
  refine ⟨rfl, rfl, rfl, ?_⟩
  intro nm hnm
  simp only [List.mem_singleton] at hnm
  subst hnm
  rfl

end Memoir
